import Mathlib

/-!
Verification of the `plugin-web-update-notification` webpack plugin
(`src/packages/webpack-plugin/src/index.ts`).

The plugin's HTML mutation is plain JavaScript string manipulation:
`String.prototype.replace` with a string pattern replaces the *first*
occurrence only.  We embed strings as Lean `String`s (lists of characters)
and model the replace/containment primitives directly.
-/

namespace WebUpdateNotification

/-- First-occurrence replacement on character lists, mirroring JavaScript
`String.prototype.replace(pat, rep)` with a string pattern (the `$`-escape
sequences of JS replacement strings never occur in the plugin's replacement
texts, so plain splicing is faithful). -/
def replaceFirstL (pat rep : List Char) : List Char → List Char
  | [] => if pat.isPrefixOf ([] : List Char) then rep else []
  | c :: cs =>
    if pat.isPrefixOf (c :: cs) then rep ++ (c :: cs).drop pat.length
    else c :: replaceFirstL pat rep cs

/-- Substring test (JavaScript `String.prototype.includes`). -/
def containsL (pat : List Char) : List Char → Bool
  | [] => pat.isPrefixOf ([] : List Char)
  | c :: cs => pat.isPrefixOf (c :: cs) || containsL pat cs

/-- Number of (possibly overlapping) start positions at which `pat` occurs. -/
def countSubL (pat : List Char) : List Char → Nat
  | [] => if pat.isPrefixOf ([] : List Char) then 1 else 0
  | c :: cs => (if pat.isPrefixOf (c :: cs) then 1 else 0) + countSubL pat cs

/-- `noEarlyOcc pat pre rest = true` states that no occurrence of `pat` in
`pre ++ rest` starts strictly inside `pre`; used to pin the position of a
first occurrence. -/
def noEarlyOcc (pat : List Char) : List Char → List Char → Bool
  | [], _ => true
  | c :: cs, rest => !(pat.isPrefixOf (c :: (cs ++ rest))) && noEarlyOcc pat cs rest

/-- No occurrence of `p` straddles the boundary of `x ++ y`. -/
def noStraddle (p x y : List Char) : Prop :=
  ∀ k, k < p.length → 0 < k → ¬(p.take k <:+ x ∧ p.drop k <+: y)

instance (p x y : List Char) : Decidable (noStraddle p x y) := by
  unfold noStraddle; infer_instance

lemma isPrefixOf_eq_true_iff (p s : List Char) : p.isPrefixOf s = true ↔ p <+: s :=
  List.isPrefixOf_iff_prefix

lemma isPrefixOf_append_self (p t : List Char) : p.isPrefixOf (p ++ t) = true :=
  (isPrefixOf_eq_true_iff p (p ++ t)).mpr (List.prefix_append p t)

/-- A pattern that fits inside the left part of an append and is a prefix of
the whole is a prefix of the left part. -/
lemma prefix_short_of_append {p x y : List Char} (h : p <+: x ++ y)
    (hlen : p.length ≤ x.length) : p <+: x := by
  rw [List.prefix_iff_eq_take] at h ⊢
  rwa [List.take_append_of_le_length hlen] at h

lemma not_prefix_append_of_short {p x y : List Char} (hlen : p.length ≤ x.length)
    (h : ¬ p <+: x) : ¬ p <+: x ++ y :=
  fun hp => h (prefix_short_of_append hp hlen)

/-- If `pat` does not occur in `s`, first-occurrence replacement is a no-op. -/
lemma replaceFirstL_of_not_contains {pat rep s : List Char}
    (h : containsL pat s = false) : replaceFirstL pat rep s = s := by
  induction s with
  | nil =>
    unfold containsL at h
    unfold replaceFirstL
    simp [h]
  | cons c cs ih =>
    unfold containsL at h
    rw [Bool.or_eq_false_iff] at h
    unfold replaceFirstL
    rw [h.1]
    simp [ih h.2]

/-- First-occurrence replacement splices at a pinned occurrence. -/
lemma replaceFirstL_splice {pat rep pre post : List Char} (hp : pat ≠ [])
    (h : noEarlyOcc pat pre (pat ++ post) = true) :
    replaceFirstL pat rep (pre ++ pat ++ post) = pre ++ rep ++ post := by
  induction pre with
  | nil =>
    simp only [List.nil_append]
    match pat, hp with
    | p :: ps, _ =>
      have e : (p :: ps) ++ post = p :: (ps ++ post) := by simp
      rw [e]
      unfold replaceFirstL
      rw [← e, isPrefixOf_append_self (p :: ps) post]
      simp [List.drop_left]
  | cons c cs ih =>
    unfold noEarlyOcc at h
    rw [Bool.and_eq_true, Bool.not_eq_true'] at h
    obtain ⟨h1, h2⟩ := h
    have e1 : (c :: cs) ++ pat ++ post = c :: (cs ++ (pat ++ post)) := by simp
    rw [e1]
    unfold replaceFirstL
    rw [h1]
    simp only [Bool.false_eq_true, if_false]
    have e2 : cs ++ (pat ++ post) = cs ++ pat ++ post := (List.append_assoc cs pat post).symm
    rw [e2, ih h2]
    simp

/-- Containment is positivity of the occurrence count. -/
lemma containsL_iff_countSubL_pos (pat s : List Char) :
    containsL pat s = true ↔ 0 < countSubL pat s := by
  induction s with
  | nil =>
    unfold containsL countSubL
    by_cases h : pat.isPrefixOf ([] : List Char) = true <;> simp [h]
  | cons c cs ih =>
    unfold containsL countSubL
    by_cases h : pat.isPrefixOf (c :: cs) = true <;> simp [h, ih]

lemma containsL_eq_false_iff (pat s : List Char) :
    containsL pat s = false ↔ countSubL pat s = 0 := by
  rw [← Bool.not_eq_true, containsL_iff_countSubL_pos]
  omega

/-- Occurrence counts add across an append with no straddling occurrence. -/
lemma countSubL_append {p : List Char} (x y : List Char) (hp : p ≠ [])
    (h : noStraddle p x y) :
    countSubL p (x ++ y) = countSubL p x + countSubL p y := by
  induction x with
  | nil =>
    have h0 : countSubL p ([] : List Char) = 0 := by
      match p, hp with
      | a :: as, _ => rfl
    simp [h0]
  | cons c cs ih =>
    have hns : noStraddle p cs y := by
      intro k hk h0 hky
      exact h k hk h0 ⟨hky.1.trans (List.suffix_cons c cs), hky.2⟩
    have hiff : p.isPrefixOf (c :: (cs ++ y)) = p.isPrefixOf (c :: cs) := by
      by_cases hpre : p.isPrefixOf (c :: cs) = true
      · rw [hpre]
        rw [isPrefixOf_eq_true_iff]
        have h3 : p <+: (c :: cs) ++ y :=
          ((isPrefixOf_eq_true_iff _ _).mp hpre).trans (List.prefix_append _ _)
        simpa using h3
      · rw [Bool.not_eq_true] at hpre
        rw [hpre]
        rw [Bool.eq_false_iff]
        intro hcon0
        have hcon : p <+: (c :: cs) ++ y := by
          rw [isPrefixOf_eq_true_iff] at hcon0
          simpa using hcon0
        rcases le_or_lt p.length (c :: cs).length with hlen | hlen
        · have h4 := prefix_short_of_append hcon hlen
          rw [← isPrefixOf_eq_true_iff, hpre] at h4
          cases h4
        · have hpeq : p = ((c :: cs) ++ y).take p.length := List.prefix_iff_eq_take.mp hcon
          have h1 : p.take (c :: cs).length = c :: cs := by
            rw [hpeq, List.take_take, Nat.min_eq_left (Nat.le_of_lt hlen), List.take_left]
          refine h (c :: cs).length hlen (by simp) ⟨?_, ?_⟩
          · rw [h1]
          · obtain ⟨t, ht⟩ := hcon
            have hxp : (c :: cs) ++ p.drop (c :: cs).length = p := by
              nth_rewrite 1 [← h1]
              exact List.take_append_drop _ _
            refine ⟨t, ?_⟩
            rw [← hxp, List.append_assoc] at ht
            exact List.append_cancel_left ht
    simp only [List.cons_append]
    rw [show countSubL p (c :: (cs ++ y))
          = (if p.isPrefixOf (c :: (cs ++ y)) then 1 else 0) + countSubL p (cs ++ y) from rfl,
      show countSubL p (c :: cs)
          = (if p.isPrefixOf (c :: cs) then 1 else 0) + countSubL p cs from rfl,
      hiff, ih hns]
    omega

lemma containsL_of_isPrefixOf {p s : List Char} (h : p.isPrefixOf s = true) :
    containsL p s = true := by
  cases s with
  | nil => unfold containsL; exact h
  | cons c cs => unfold containsL; rw [h]; rfl

/-- A pattern occurs in any string that exhibits it in the middle. -/
lemma containsL_middle (x p y : List Char) : containsL p (x ++ p ++ y) = true := by
  induction x with
  | nil =>
    refine containsL_of_isPrefixOf ?_
    simp only [List.nil_append]
    exact isPrefixOf_append_self p y
  | cons c cs ih =>
    have e : (c :: cs) ++ p ++ y = c :: (cs ++ p ++ y) := by simp
    rw [e]
    unfold containsL
    rw [ih]
    simp

lemma containsL_eq_false_of_longer {p s : List Char} (h : s.length < p.length) :
    containsL p s = false := by
  induction s with
  | nil =>
    match p, h with
    | a :: as, _ => rfl
  | cons c cs ih =>
    unfold containsL
    have h1 : p.isPrefixOf (c :: cs) = false := by
      rw [Bool.eq_false_iff]
      intro hc
      have h2 := ((isPrefixOf_eq_true_iff _ _).mp hc).length_le
      omega
    have h2 : cs.length < p.length := by
      simp only [List.length_cons] at h
      omega
    rw [h1, ih h2]
    rfl

lemma countSubL_self {p : List Char} (hp : p ≠ []) : countSubL p p = 1 := by
  match p, hp with
  | a :: as, _ =>
    unfold countSubL
    have h1 : (a :: as).isPrefixOf (a :: as) = true := by
      rw [isPrefixOf_eq_true_iff]
    rw [h1]
    have h2 : countSubL (a :: as) as = 0 := by
      rw [← containsL_eq_false_iff]
      exact containsL_eq_false_of_longer (by simp)
    rw [h2]
    rfl

lemma noStraddle_of_no_tail {p : List Char} (x y : List Char)
    (h : ∀ k, k < p.length → 0 < k → ¬ p.drop k <+: y) : noStraddle p x y :=
  fun k hk h0 hky => h k hk h0 hky.2

lemma noStraddle_of_no_head {p : List Char} (x y : List Char)
    (h : ∀ k, k < p.length → 0 < k → ¬ p.take k <:+ x) : noStraddle p x y :=
  fun k hk h0 hky => h k hk h0 hky.1

/-- Straddle-freedom into an append whose left block already rules out every
proper tail of the pattern. -/
lemma noStraddle_concat_right {p : List Char} (x l r : List Char)
    (hlen : p.length ≤ l.length + 1)
    (h : ∀ k, k < p.length → 0 < k → ¬ p.drop k <+: l) : noStraddle p x (l ++ r) := by
  refine noStraddle_of_no_tail x (l ++ r) ?_
  intro k hk h0 hpre
  have hlen2 : (p.drop k).length ≤ l.length := by
    simp only [List.length_drop]
    omega
  exact h k hk h0 (prefix_short_of_append hpre hlen2)

/-- Absence of a pattern is preserved by straddle-free appends. -/
lemma containsL_append_eq_false {p : List Char} (x y : List Char) (hp : p ≠ [])
    (hx : containsL p x = false) (hy : containsL p y = false)
    (h : noStraddle p x y) : containsL p (x ++ y) = false := by
  rw [containsL_eq_false_iff] at hx hy ⊢
  rw [countSubL_append x y hp h, hx, hy]

/-! ### String-level wrappers -/

def replaceFirstS (pat rep s : String) : String := ⟨replaceFirstL pat.data rep.data s.data⟩

def containsS (pat s : String) : Bool := containsL pat.data s.data

def countSubS (pat s : String) : Nat := countSubL pat.data s.data

def noEarlyOccS (pat pre rest : String) : Bool := noEarlyOcc pat.data pre.data rest.data

def noStraddleS (p x y : String) : Prop := noStraddle p.data x.data y.data

instance (p x y : String) : Decidable (noStraddleS p x y) := by
  unfold noStraddleS; infer_instance

lemma strExt {s t : String} (h : s.data = t.data) : s = t := by
  cases s; cases t; exact congrArg String.mk h

lemma strData_append (s t : String) : (s ++ t).data = s.data ++ t.data := rfl

/-! ### Data model of the plugin (src/packages/webpack-plugin/src/index.ts)

`Options` from `@plugin-web-update-notification/core` plus the plugin-local
`indexHtmlFilePath` field (index.ts lines 21-24).  Optional string fields of
the TS interface are `Option String` (`undefined` = `none`); optional boolean
flags are plain `Bool`, since TS `undefined` and `false` behave identically
everywhere the plugin reads them (only truthiness tests). -/

structure Options where
  versionType : Option String
  customVersion : Option String
  customNotificationHTML : Option String
  hiddenDefaultNotification : Bool
  injectFileBase : Option String
  silence : Bool
  microApp : Bool
  indexHtmlFilePath : Option String
deriving DecidableEq

/-- TS truthiness of an optional string: `undefined` and `""` are falsy,
every other string is truthy. -/
def truthyStr : Option String → Bool
  | none => false
  | some s => !(s == "")

/-- Modelled from the spec: `DIRECTORY_NAME`, exported by the core package
(not under src/) — "`assetDir` is a fixed, documented directory name under
the build output root".  The claims do not depend on the concrete value. -/
def DIRECTORY_NAME : String := "pluginWebUpdateNotice"

/-- Modelled from the spec: fixed stylesheet base name from the core package
(not under src/). -/
def INJECT_STYLE_FILE_NAME : String := "webUpdateNoticeInjectStyle"

/-- Modelled from the spec: fixed script base name from the core package
(not under src/). -/
def INJECT_SCRIPT_FILE_NAME : String := "webUpdateNoticeInjectScript"

/-- Modelled from the spec: fixed manifest base name from the core package
(not under src/) — "manifest path fixed", polled at a non-hashed path. -/
def JSON_FILE_NAME : String := "web_version_by_plugin"

/-- Modelled from the spec: the fixed, documented class name of the
notification anchor element, from the core package (not under src/). -/
def NOTIFICATION_ANCHOR_CLASS_NAME : String := "plugin-web-update-notice-anchor"

/-- `versionScript` template literal (index.ts lines 44 and 78). -/
def versionScript (version : String) : String :=
  "<script>window.pluginWebUpdateNotice_version = \x27" ++ version ++ "\x27;</script>"

/-- `cssLinkHtml` (index.ts line 45): empty when a custom notification UI is
configured (truthy) or the default notification is hidden. -/
def cssLinkHtml (o : Options) (cssFileHash : String) : String :=
  if truthyStr o.customNotificationHTML || o.hiddenDefaultNotification then ""
  else
    "<link rel=\"stylesheet\" href=\"" ++ o.injectFileBase.getD "/" ++ DIRECTORY_NAME
      ++ "/" ++ INJECT_STYLE_FILE_NAME ++ "." ++ cssFileHash ++ ".css\">"

/-- The external script tag of linked mode (index.ts line 52). -/
def scriptSrcTag (o : Options) (jsFileHash : String) : String :=
  "<script src=\"" ++ o.injectFileBase.getD "/" ++ DIRECTORY_NAME ++ "/"
    ++ INJECT_SCRIPT_FILE_NAME ++ "." ++ jsFileHash ++ ".js\"></script>"

/-- The notification anchor element inserted before `</body>`
(index.ts lines 57 and 99). -/
def anchorDiv : String := "<div class=\"" ++ NOTIFICATION_ANCHOR_CLASS_NAME ++ "\"></div>"

/-- The replacement text spliced at `<head>` by linked-mode injection: the
template literal of index.ts lines 50-53 (newline plus four spaces of
indentation between the parts). -/
def linkedHeadRep (version : String) (o : Options) (cssFileHash jsFileHash : String) : String :=
  "<head>\n    " ++ cssLinkHtml o cssFileHash ++ "\n    " ++ scriptSrcTag o jsFileHash
    ++ "\n    " ++ versionScript version

/-- `injectPluginHtml` (index.ts lines 36-60): linked-mode injection. -/
def injectPluginHtml (html version : String) (o : Options)
    (cssFileHash jsFileHash : String) : String :=
  let res := replaceFirstS "<head>" (linkedHeadRep version o cssFileHash jsFileHash) html
  if o.hiddenDefaultNotification then res
  else replaceFirstS "</body>" (anchorDiv ++ "</body>") res

/-- `pluginStyle` (index.ts lines 80-84). -/
def pluginStyle (o : Options) (injectStyleContent : String) : String :=
  if truthyStr o.customNotificationHTML || o.hiddenDefaultNotification then ""
  else "<style>" ++ injectStyleContent ++ "</style>"

/-- `pluginScript` (index.ts line 88). -/
def pluginScriptTag (injectScriptContent : String) : String :=
  "<script>" ++ injectScriptContent ++ "</script>"

/-- The replacement text spliced at `<head>` by inline-mode injection: the
template literal of index.ts lines 92-95 (newline plus eight spaces of
indentation between the parts). -/
def inlineHeadRep (version : String) (o : Options)
    (injectStyleContent injectScriptContent : String) : String :=
  "<head>\n        " ++ pluginStyle o injectStyleContent ++ "\n        "
    ++ pluginScriptTag injectScriptContent ++ "\n        " ++ versionScript version

/-- `injectPluginHTMLInline` (index.ts lines 72-102): inline-mode injection. -/
def injectPluginHTMLInline (html version : String) (o : Options)
    (injectStyleContent injectScriptContent : String) : String :=
  let res :=
    replaceFirstS "<head>"
      (inlineHeadRep version o injectStyleContent injectScriptContent) html
  if o.hiddenDefaultNotification then res
  else replaceFirstS "</body>" (anchorDiv ++ "</body>") res

/-! ### Pipeline (the `apply` method, index.ts lines 111-190) -/

/-- Asset path of the manifest (index.ts line 140). -/
def jsonAssetName : String := DIRECTORY_NAME ++ "/" ++ JSON_FILE_NAME ++ ".json"

/-- Asset path of the hash-suffixed stylesheet (index.ts line 149). -/
def cssAssetName (cssFileHash : String) : String :=
  DIRECTORY_NAME ++ "/" ++ INJECT_STYLE_FILE_NAME ++ "." ++ cssFileHash ++ ".css"

/-- Asset path of the hash-suffixed script (index.ts line 164). -/
def jsAssetName (jsFileHash : String) : String :=
  DIRECTORY_NAME ++ "/" ++ INJECT_SCRIPT_FILE_NAME ++ "." ++ jsFileHash ++ ".js"

/-- Modelled from the spec: `generateJSONFileContent` from the core package
(not under src/) — "Manifest JSON schema: \x7b \"version\": string,
\"silence\": boolean \x7d", the version embedded verbatim. -/
def generateJSONFileContent (version : String) (silence : Bool) : String :=
  "\x7b \"version\": \"" ++ version ++ "\", \"silence\": "
    ++ (if silence then "true" else "false") ++ " \x7d"

/-- Modelled from the spec: `getVersion` from the core package (not under
src/) — strategy `"custom"` returns the supplied string verbatim; the
hash-derived strategies are abstracted by the `hashDerivedVersion`
parameter.  Matches the call shape of index.ts line 134, where the custom
branch passes `customVersion!`. -/
def getVersion (versionType customVersion : Option String)
    (hashDerivedVersion : String) : String :=
  if versionType == some "custom" then customVersion.getD "" else hashDerivedVersion

/-- The plugin-instance fields retained between the `emit` and `afterEmit`
hooks (index.ts lines 112-119), plus the asset map written into
`compilation.assets`. -/
structure EmitState where
  version : String
  jsFileHash : String
  cssFileHash : String
  injectScriptContent : String
  injectStyleContent : String
  assets : List (String × String)
deriving DecidableEq

/-- The `emit` hook body (index.ts lines 136-168).  External collaborators
appear as parameters: `getFileHash` and `generateJsFileContent` are imported
from the core package (not under src/); `styleTemplate` and `scriptTemplate`
are the bundled template files read with `readFileSync`. -/
def emitPhase (o : Options) (getFileHash : String → String)
    (generateJsFileContent : String → String → Options → String)
    (version styleTemplate scriptTemplate : String) : EmitState :=
  let jsonFileContent := generateJSONFileContent version o.silence
  let assets0 : List (String × String) := [(jsonAssetName, jsonFileContent)]
  let styleStep :=
    if o.hiddenDefaultNotification then ("", "", assets0)
    else
      let injectStyleContent := styleTemplate
      let cssFileHash := getFileHash injectStyleContent
      (injectStyleContent, cssFileHash,
        assets0 ++ [(cssAssetName cssFileHash, injectStyleContent)])
  let injectScriptContent := generateJsFileContent scriptTemplate version o
  let jsFileHash := getFileHash injectScriptContent
  let assets2 := styleStep.2.2 ++ [(jsAssetName jsFileHash, injectScriptContent)]
  ⟨version, jsFileHash, styleStep.2.1, injectScriptContent, styleStep.1, assets2⟩

/-- The output directory on disk, as a path-to-content map. -/
abbrev FS := List (String × String)

def readFile (fs : FS) (p : String) : Option String :=
  (fs.find? (fun e => e.1 == p)).map (fun e => e.2)

def writeFile (fs : FS) (p c : String) : FS :=
  if fs.any (fun e => e.1 == p) then fs.map (fun e => if e.1 == p then (p, c) else e)
  else fs ++ [(p, c)]

/-- The error message printed by the `catch` branch (index.ts line 187). -/
def errorMessage (htmlFilePath : String) : String :=
  "WebUpdateNotificationPlugin failed to inject the plugin into the HTML file. index.html（"
    ++ htmlFilePath ++ "） not found."

/-- The `try` block of the `afterEmit` hook (index.ts lines 172-184):
`accessSync` throws when the entry HTML file is absent (modelled as
`Except.error`); otherwise the file is read, injected in the mode selected
by `microApp`, and written back.  `path.resolve` is external; the resolved
path arrives as `htmlFilePath`. -/
def afterEmitTry (o : Options) (st : EmitState) (htmlFilePath : String)
    (fs : FS) : Except String FS :=
  match readFile fs htmlFilePath with
  | none => Except.error ("ENOENT: no such file or directory, access \x27" ++ htmlFilePath ++ "\x27")
  | some html =>
    let injected :=
      if o.microApp then
        injectPluginHTMLInline html st.version o st.injectStyleContent st.injectScriptContent
      else
        injectPluginHtml html st.version o st.cssFileHash st.jsFileHash
    Except.ok (writeFile fs htmlFilePath injected)

/-- The `afterEmit` hook (index.ts lines 170-189): any exception from the
`try` block is caught and logged (`console.error(error)` followed by the
fixed message naming the resolved path); the hook itself always returns
normally.  The second component is the list of logged error strings. -/
def afterEmitPhase (o : Options) (st : EmitState) (htmlFilePath : String)
    (fs : FS) : FS × List String :=
  match afterEmitTry o st htmlFilePath fs with
  | Except.ok fs2 => (fs2, [])
  | Except.error e => (fs, [e, errorMessage htmlFilePath])

/-- One full build: version resolution (index.ts line 134), the `emit` hook,
then the `afterEmit` hook.  Returns the retained state, the resulting output
directory and the logged errors. -/
def pipelineRun (o : Options) (getFileHash : String → String)
    (generateJsFileContent : String → String → Options → String)
    (hashDerivedVersion styleTemplate scriptTemplate htmlFilePath : String)
    (fs : FS) : EmitState × FS × List String :=
  let version := getVersion o.versionType o.customVersion hashDerivedVersion
  let st := emitPhase o getFileHash generateJsFileContent version styleTemplate scriptTemplate
  let out := afterEmitPhase o st htmlFilePath fs
  (st, out.1, out.2)

/-! ### Structured descriptions of the two injection functions -/

lemma strData_empty : ("" : String).data = [] := rfl

lemma replaceFirstS_of_not_contains (pat rep s : String) (h : containsS pat s = false) :
    replaceFirstS pat rep s = s :=
  strExt (replaceFirstL_of_not_contains h)

lemma replaceFirstS_splice (pat rep pre post : String) (hp : pat.data ≠ [])
    (h : noEarlyOccS pat pre (pat ++ post) = true) :
    replaceFirstS pat rep (pre ++ pat ++ post) = pre ++ rep ++ post :=
  strExt (replaceFirstL_splice hp h)

/-- Linked-mode injection on a document exhibiting its first `<head>` and
first `</body>` markers: the output splices the head replacement at `<head>`
and, unless hidden, one anchor element immediately before `</body>`,
preserving `p1`, `p2` and `p3` verbatim. -/
lemma injectPluginHtml_structured
    (p1 p2 p3 version : String) (o : Options) (ch jh : String)
    (h1 : noEarlyOccS "<head>" p1 ("<head>" ++ (p2 ++ "</body>" ++ p3)) = true)
    (h2 : o.hiddenDefaultNotification = false →
      noEarlyOccS "</body>" (p1 ++ linkedHeadRep version o ch jh ++ p2)
        ("</body>" ++ p3) = true) :
    injectPluginHtml (p1 ++ "<head>" ++ p2 ++ "</body>" ++ p3) version o ch jh
      = p1 ++ linkedHeadRep version o ch jh ++ p2
        ++ (if o.hiddenDefaultNotification then "" else anchorDiv) ++ "</body>" ++ p3 := by
  have ehtml : p1 ++ "<head>" ++ p2 ++ "</body>" ++ p3
      = p1 ++ "<head>" ++ (p2 ++ "</body>" ++ p3) := by
    apply strExt
    simp [strData_append, List.append_assoc]
  have hres : replaceFirstS "<head>" (linkedHeadRep version o ch jh)
      (p1 ++ "<head>" ++ p2 ++ "</body>" ++ p3)
      = p1 ++ linkedHeadRep version o ch jh ++ (p2 ++ "</body>" ++ p3) := by
    rw [ehtml]
    exact replaceFirstS_splice "<head>" _ p1 (p2 ++ "</body>" ++ p3) (by decide) h1
  simp only [injectPluginHtml, hres]
  cases hh : o.hiddenDefaultNotification with
  | true =>
    simp only [if_true]
    apply strExt
    simp [strData_append, strData_empty, List.append_assoc]
  | false =>
    simp only [Bool.false_eq_true, if_false]
    have e2 : p1 ++ linkedHeadRep version o ch jh ++ (p2 ++ "</body>" ++ p3)
        = (p1 ++ linkedHeadRep version o ch jh ++ p2) ++ "</body>" ++ p3 := by
      apply strExt
      simp [strData_append, List.append_assoc]
    rw [e2, replaceFirstS_splice "</body>" (anchorDiv ++ "</body>")
      (p1 ++ linkedHeadRep version o ch jh ++ p2) p3 (by decide) (h2 hh)]
    apply strExt
    simp [strData_append, List.append_assoc]

/-- Inline-mode injection on a document exhibiting its first `<head>` and
first `</body>` markers. -/
lemma injectPluginHTMLInline_structured
    (p1 p2 p3 version : String) (o : Options) (sc jc : String)
    (h1 : noEarlyOccS "<head>" p1 ("<head>" ++ (p2 ++ "</body>" ++ p3)) = true)
    (h2 : o.hiddenDefaultNotification = false →
      noEarlyOccS "</body>" (p1 ++ inlineHeadRep version o sc jc ++ p2)
        ("</body>" ++ p3) = true) :
    injectPluginHTMLInline (p1 ++ "<head>" ++ p2 ++ "</body>" ++ p3) version o sc jc
      = p1 ++ inlineHeadRep version o sc jc ++ p2
        ++ (if o.hiddenDefaultNotification then "" else anchorDiv) ++ "</body>" ++ p3 := by
  have ehtml : p1 ++ "<head>" ++ p2 ++ "</body>" ++ p3
      = p1 ++ "<head>" ++ (p2 ++ "</body>" ++ p3) := by
    apply strExt
    simp [strData_append, List.append_assoc]
  have hres : replaceFirstS "<head>" (inlineHeadRep version o sc jc)
      (p1 ++ "<head>" ++ p2 ++ "</body>" ++ p3)
      = p1 ++ inlineHeadRep version o sc jc ++ (p2 ++ "</body>" ++ p3) := by
    rw [ehtml]
    exact replaceFirstS_splice "<head>" _ p1 (p2 ++ "</body>" ++ p3) (by decide) h1
  simp only [injectPluginHTMLInline, hres]
  cases hh : o.hiddenDefaultNotification with
  | true =>
    simp only [if_true]
    apply strExt
    simp [strData_append, strData_empty, List.append_assoc]
  | false =>
    simp only [Bool.false_eq_true, if_false]
    have e2 : p1 ++ inlineHeadRep version o sc jc ++ (p2 ++ "</body>" ++ p3)
        = (p1 ++ inlineHeadRep version o sc jc ++ p2) ++ "</body>" ++ p3 := by
      apply strExt
      simp [strData_append, List.append_assoc]
    rw [e2, replaceFirstS_splice "</body>" (anchorDiv ++ "</body>")
      (p1 ++ inlineHeadRep version o sc jc ++ p2) p3 (by decide) (h2 hh)]
    apply strExt
    simp [strData_append, List.append_assoc]

/-! ### Asset-name discrimination -/

lemma reverse_take_append (a suf : List Char) (n : Nat) (hn : n ≤ suf.length) :
    (a ++ suf).reverse.take n = suf.reverse.take n := by
  rw [List.reverse_append, List.take_append_of_le_length (by simp [hn])]

lemma cssAssetName_rt3 (h : String) : (cssAssetName h).data.reverse.take 3 = ['s', 's', 'c'] := by
  have e : (cssAssetName h).data
      = (DIRECTORY_NAME ++ "/" ++ INJECT_STYLE_FILE_NAME ++ "." ++ h).data ++ ".css".data := rfl
  rw [e, reverse_take_append _ _ 3 (by decide)]
  decide

lemma jsAssetName_rt3 (h : String) : (jsAssetName h).data.reverse.take 3 = ['s', 'j', '.'] := by
  have e : (jsAssetName h).data
      = (DIRECTORY_NAME ++ "/" ++ INJECT_SCRIPT_FILE_NAME ++ "." ++ h).data ++ ".js".data := rfl
  rw [e, reverse_take_append _ _ 3 (by decide)]
  decide

lemma jsonAssetName_rt3 : jsonAssetName.data.reverse.take 3 = ['n', 'o', 's'] := by decide

lemma cssAssetName_ne_jsonAssetName (h : String) : cssAssetName h ≠ jsonAssetName := by
  intro he
  have h2 : (cssAssetName h).data.reverse.take 3 = jsonAssetName.data.reverse.take 3 := by
    rw [he]
  rw [cssAssetName_rt3, jsonAssetName_rt3] at h2
  exact absurd h2 (by decide)

lemma jsAssetName_ne_jsonAssetName (h : String) : jsAssetName h ≠ jsonAssetName := by
  intro he
  have h2 : (jsAssetName h).data.reverse.take 3 = jsonAssetName.data.reverse.take 3 := by
    rw [he]
  rw [jsAssetName_rt3, jsonAssetName_rt3] at h2
  exact absurd h2 (by decide)

lemma cssAssetName_ne_jsAssetName (h h' : String) : cssAssetName h ≠ jsAssetName h' := by
  intro he
  have h2 : (cssAssetName h).data.reverse.take 3 = (jsAssetName h').data.reverse.take 3 := by
    rw [he]
  rw [cssAssetName_rt3, jsAssetName_rt3] at h2
  exact absurd h2 (by decide)

lemma cssAssetName_inj {h h' : String} (he : cssAssetName h = cssAssetName h') : h = h' := by
  have e : ((DIRECTORY_NAME ++ "/" ++ INJECT_STYLE_FILE_NAME ++ ".").data ++ h.data)
        ++ ".css".data
      = ((DIRECTORY_NAME ++ "/" ++ INJECT_STYLE_FILE_NAME ++ ".").data ++ h'.data)
        ++ ".css".data := congrArg String.data he
  exact strExt (List.append_cancel_left (List.append_cancel_right e))

lemma jsAssetName_inj {h h' : String} (he : jsAssetName h = jsAssetName h') : h = h' := by
  have e : ((DIRECTORY_NAME ++ "/" ++ INJECT_SCRIPT_FILE_NAME ++ ".").data ++ h.data)
        ++ ".js".data
      = ((DIRECTORY_NAME ++ "/" ++ INJECT_SCRIPT_FILE_NAME ++ ".").data ++ h'.data)
        ++ ".js".data := congrArg String.data he
  exact strExt (List.append_cancel_left (List.append_cancel_right e))

/-- C1: For every emitted hash-suffixed asset (the stylesheet and the
script), the hash suffix embedded in the asset's registered filename equals
`getFileHash` applied to exactly the content string registered for that
asset in the same emit phase. -/
theorem C1_emitted_hash_suffix_matches_content
    (o : Options) (getFileHash : String → String)
    (generateJsFileContent : String → String → Options → String)
    (version styleTemplate scriptTemplate : String) (p c h : String)
    (hmem : (p, c) ∈ (emitPhase o getFileHash generateJsFileContent
      version styleTemplate scriptTemplate).assets)
    (hname : p = cssAssetName h ∨ p = jsAssetName h) :
    h = getFileHash c := by
  cases hh : o.hiddenDefaultNotification with
  | true =>
    simp only [emitPhase, hh, if_true, List.cons_append, List.nil_append,
      List.mem_cons, List.not_mem_nil, or_false, Prod.mk.injEq] at hmem
    rcases hmem with ⟨hp, hc⟩ | ⟨hp, hc⟩
    · rcases hname with hn | hn
      · exact absurd (hn.symm.trans hp) (cssAssetName_ne_jsonAssetName h)
      · exact absurd (hn.symm.trans hp) (jsAssetName_ne_jsonAssetName h)
    · rcases hname with hn | hn
      · exact absurd (hn.symm.trans hp) (cssAssetName_ne_jsAssetName h _)
      · subst hc
        rw [jsAssetName_inj (hn.symm.trans hp)]
  | false =>
    simp only [emitPhase, hh, Bool.false_eq_true, if_false, List.cons_append,
      List.nil_append, List.mem_cons, List.not_mem_nil, or_false, Prod.mk.injEq] at hmem
    rcases hmem with ⟨hp, hc⟩ | ⟨hp, hc⟩ | ⟨hp, hc⟩
    · rcases hname with hn | hn
      · exact absurd (hn.symm.trans hp) (cssAssetName_ne_jsonAssetName h)
      · exact absurd (hn.symm.trans hp) (jsAssetName_ne_jsonAssetName h)
    · rcases hname with hn | hn
      · subst hc
        rw [cssAssetName_inj (hn.symm.trans hp)]
      · exact absurd (hp.symm.trans hn) (cssAssetName_ne_jsAssetName _ h)
    · rcases hname with hn | hn
      · exact absurd (hn.symm.trans hp) (cssAssetName_ne_jsAssetName h _)
      · subst hc
        rw [jsAssetName_inj (hn.symm.trans hp)]

/-- Witness for C1: a concrete emit phase whose stylesheet asset carries the
hash suffix computed from its registered content. -/
theorem C1_emitted_hash_suffix_matches_content_witness :
    (cssAssetName "HH", "styleT")
        ∈ (emitPhase ⟨none, none, none, false, none, false, false, none⟩
          (fun _ => "HH") (fun t v _ => t ++ v) "v" "styleT" "scriptT").assets
      ∧ ("HH" : String) = (fun _ : String => "HH") "styleT" :=
  ⟨by decide,
    C1_emitted_hash_suffix_matches_content
      ⟨none, none, none, false, none, false, false, none⟩
      (fun _ => "HH") (fun t v _ => t ++ v) "v" "styleT" "scriptT"
      (cssAssetName "HH") "styleT" "HH" (by decide) (Or.inl rfl)⟩

/-- C6 counterexample: on a document that has neither an opening `<head>`
tag nor a closing `</body>` tag, both injection functions silently return
the document unchanged, and the finalize phase writes it back and logs
nothing — no failure is reported, contradicting the claim. -/
theorem C6_counterexample_silent_on_missing_markers :
    injectPluginHtml "<p>no markers</p>" "v"
        ⟨none, none, none, false, none, false, false, none⟩ "c" "j" = "<p>no markers</p>"
      ∧ injectPluginHTMLInline "<p>no markers</p>" "v"
        ⟨none, none, none, false, none, false, false, none⟩ "s" "j" = "<p>no markers</p>"
      ∧ afterEmitPhase ⟨none, none, none, false, none, false, false, none⟩
        (emitPhase ⟨none, none, none, false, none, false, false, none⟩
          (fun _ => "H") (fun t _ _ => t) "v" "s" "j")
        "/dist/index.html" [("/dist/index.html", "<p>no markers</p>")]
        = ([("/dist/index.html", "<p>no markers</p>")], []) := by
  refine ⟨by decide, by decide, by decide⟩

/-- C6 amended: injection handles a missing marker silently, never as a
reported failure.  (A) On input lacking `<head>`, both modes silently skip
the head insertion and still apply the anchor step to the document;
(A') lacking both markers, the document passes through byte-identical;
(B) on input whose first `<head>` is exhibited but which contains no
`</body>` (neither does the injected block), both modes perform the head
insertion and silently skip the anchor insertion; (C) whenever the entry
file exists the finalize phase completes with an empty error log — the only
reported failure is a missing entry file. -/
theorem C6_amended_injection_silently_skips_missing_marker
    (html version : String) (o : Options) (ch jh sc jc htmlFilePath : String)
    (st : EmitState) (p1 p2 : String) :
    (containsS "<head>" html = false →
      injectPluginHtml html version o ch jh
          = (if o.hiddenDefaultNotification then html
            else replaceFirstS "</body>" (anchorDiv ++ "</body>") html)
        ∧ injectPluginHTMLInline html version o sc jc
          = (if o.hiddenDefaultNotification then html
            else replaceFirstS "</body>" (anchorDiv ++ "</body>") html))
      ∧ (containsS "<head>" html = false → containsS "</body>" html = false →
        injectPluginHtml html version o ch jh = html
          ∧ injectPluginHTMLInline html version o sc jc = html)
      ∧ (noEarlyOccS "<head>" p1 ("<head>" ++ p2) = true →
        containsS "</body>" p1 = false → containsS "</body>" p2 = false →
        (containsS "</body>" (linkedHeadRep version o ch jh) = false →
          noStraddleS "</body>" p1 (linkedHeadRep version o ch jh ++ p2) →
          noStraddleS "</body>" (linkedHeadRep version o ch jh) p2 →
          injectPluginHtml (p1 ++ "<head>" ++ p2) version o ch jh
            = p1 ++ linkedHeadRep version o ch jh ++ p2)
          ∧ (containsS "</body>" (inlineHeadRep version o sc jc) = false →
            noStraddleS "</body>" p1 (inlineHeadRep version o sc jc ++ p2) →
            noStraddleS "</body>" (inlineHeadRep version o sc jc) p2 →
            injectPluginHTMLInline (p1 ++ "<head>" ++ p2) version o sc jc
              = p1 ++ inlineHeadRep version o sc jc ++ p2))
      ∧ (afterEmitPhase o st htmlFilePath [(htmlFilePath, html)]).2 = [] := by
  refine ⟨?_, ?_, ?_, ?_⟩
  · intro hhead
    constructor
    · simp only [injectPluginHtml]
      rw [replaceFirstS_of_not_contains _ _ _ hhead]
    · simp only [injectPluginHTMLInline]
      rw [replaceFirstS_of_not_contains _ _ _ hhead]
  · intro hhead hbody
    constructor
    · simp only [injectPluginHtml]
      rw [replaceFirstS_of_not_contains _ _ _ hhead]
      cases o.hiddenDefaultNotification with
      | true => simp
      | false => simp [replaceFirstS_of_not_contains _ _ _ hbody]
    · simp only [injectPluginHTMLInline]
      rw [replaceFirstS_of_not_contains _ _ _ hhead]
      cases o.hiddenDefaultNotification with
      | true => simp
      | false => simp [replaceFirstS_of_not_contains _ _ _ hbody]
  · intro hocc hc1 hc2
    constructor
    · intro hcr ns1 ns2
      have hnc : containsS "</body>" (p1 ++ linkedHeadRep version o ch jh ++ p2) = false := by
        show containsL "</body>".data
          ((p1 ++ linkedHeadRep version o ch jh ++ p2) : String).data = false
        have e : ((p1 ++ linkedHeadRep version o ch jh ++ p2) : String).data
            = p1.data ++ ((linkedHeadRep version o ch jh ++ p2) : String).data := by
          simp [strData_append, List.append_assoc]
        rw [e]
        refine containsL_append_eq_false _ _ (by decide) hc1 ?_ ns1
        exact containsL_append_eq_false _ _ (by decide) hcr hc2 ns2
      simp only [injectPluginHtml]
      rw [replaceFirstS_splice "<head>" (linkedHeadRep version o ch jh) p1 p2
        (by decide) hocc]
      cases o.hiddenDefaultNotification with
      | true => simp
      | false => simp [replaceFirstS_of_not_contains _ _ _ hnc]
    · intro hcr ns1 ns2
      have hnc : containsS "</body>" (p1 ++ inlineHeadRep version o sc jc ++ p2) = false := by
        show containsL "</body>".data
          ((p1 ++ inlineHeadRep version o sc jc ++ p2) : String).data = false
        have e : ((p1 ++ inlineHeadRep version o sc jc ++ p2) : String).data
            = p1.data ++ ((inlineHeadRep version o sc jc ++ p2) : String).data := by
          simp [strData_append, List.append_assoc]
        rw [e]
        refine containsL_append_eq_false _ _ (by decide) hc1 ?_ ns1
        exact containsL_append_eq_false _ _ (by decide) hcr hc2 ns2
      simp only [injectPluginHTMLInline]
      rw [replaceFirstS_splice "<head>" (inlineHeadRep version o sc jc) p1 p2
        (by decide) hocc]
      cases o.hiddenDefaultNotification with
      | true => simp
      | false => simp [replaceFirstS_of_not_contains _ _ _ hnc]
  · have hread : readFile [(htmlFilePath, html)] htmlFilePath = some html := by
      simp [readFile, List.find?]
    simp only [afterEmitPhase, afterEmitTry, hread]

set_option maxRecDepth 32768 in
/-- Witness for C6 amended: a document with only `</body>` still gets the
anchor step, and a document with only `<head>` gets the head block spliced
with no anchor added anywhere. -/
theorem C6_amended_injection_silently_skips_missing_marker_witness :
    containsS "<head>" "<body>x</body>" = false
      ∧ injectPluginHtml "<body>x</body>" "v"
          ⟨none, none, none, false, none, false, false, none⟩ "c" "j"
        = replaceFirstS "</body>" (anchorDiv ++ "</body>") "<body>x</body>"
      ∧ injectPluginHtml ("<html>" ++ "<head>" ++ "<p>x</p>") "v"
          ⟨none, none, none, false, none, false, false, none⟩ "c" "j"
        = "<html>"
          ++ linkedHeadRep "v" ⟨none, none, none, false, none, false, false, none⟩ "c" "j"
          ++ "<p>x</p>" :=
  ⟨by decide,
    ((C6_amended_injection_silently_skips_missing_marker "<body>x</body>" "v"
      ⟨none, none, none, false, none, false, false, none⟩ "c" "j" "s" "j2" "/d/index.html"
      ⟨"v", "j", "c", "sc", "st", []⟩ "<html>" "<p>x</p>").1 (by decide)).1,
    (((C6_amended_injection_silently_skips_missing_marker "<body>x</body>" "v"
      ⟨none, none, none, false, none, false, false, none⟩ "c" "j" "s" "j2" "/d/index.html"
      ⟨"v", "j", "c", "sc", "st", []⟩ "<html>" "<p>x</p>").2.2.1 (by decide) (by decide)
        (by decide)).1 (by decide) (by decide) (by decide))⟩

/-- C7: if the entry HTML file is absent at finalize time, the `afterEmit`
hook returns normally (the caught exception and the fixed message naming the
resolved path are logged), and the output directory — including every
previously emitted asset file — is returned unchanged. -/
theorem C7_missing_entry_file_nonfatal_logged
    (o : Options) (st : EmitState) (htmlFilePath : String) (fs : FS)
    (habsent : readFile fs htmlFilePath = none) :
    afterEmitPhase o st htmlFilePath fs
        = (fs, ["ENOENT: no such file or directory, access \x27" ++ htmlFilePath ++ "\x27",
            errorMessage htmlFilePath])
      ∧ containsS htmlFilePath (errorMessage htmlFilePath) = true
      ∧ (∀ q, readFile (afterEmitPhase o st htmlFilePath fs).1 q = readFile fs q) := by
  have h1 : afterEmitPhase o st htmlFilePath fs
      = (fs, ["ENOENT: no such file or directory, access \x27" ++ htmlFilePath ++ "\x27",
          errorMessage htmlFilePath]) := by
    simp only [afterEmitPhase, afterEmitTry, habsent]
  refine ⟨h1, ?_, by rw [h1]; intro q; rfl⟩
  show containsL htmlFilePath.data (errorMessage htmlFilePath).data = true
  exact containsL_middle _ _ _

/-- Witness for C7: a concrete output directory without the entry file. -/
theorem C7_missing_entry_file_nonfatal_logged_witness :
    readFile [(jsonAssetName, "mf")] "/dist/index.html" = none
      ∧ afterEmitPhase ⟨none, none, none, false, none, false, false, none⟩
          ⟨"v", "j", "c", "sc", "st", []⟩ "/dist/index.html" [(jsonAssetName, "mf")]
        = ([(jsonAssetName, "mf")],
            ["ENOENT: no such file or directory, access \x27/dist/index.html\x27",
              errorMessage "/dist/index.html"]) :=
  ⟨by decide,
    (C7_missing_entry_file_nonfatal_logged ⟨none, none, none, false, none, false, false, none⟩
      ⟨"v", "j", "c", "sc", "st", []⟩ "/dist/index.html" [(jsonAssetName, "mf")]
      (by decide)).1⟩

/-- C9: the pipeline is deterministic — two runs given the same options,
the same core collaborators, the same template/source contents and the same
original output directory produce identical retained state (version and
hashes), identical asset filenames and contents, byte-identical injected
HTML and identical logs. -/
theorem C9_pipeline_deterministic
    (o1 o2 : Options) (g1 g2 : String → String)
    (gen1 gen2 : String → String → Options → String)
    (hv1 hv2 st1 st2 sc1 sc2 hp1 hp2 : String) (fs1 fs2 : FS)
    (ho : o1 = o2) (hg : g1 = g2) (hgen : gen1 = gen2) (hhv : hv1 = hv2)
    (hst : st1 = st2) (hsc : sc1 = sc2) (hhp : hp1 = hp2) (hfs : fs1 = fs2) :
    pipelineRun o1 g1 gen1 hv1 st1 sc1 hp1 fs1 = pipelineRun o2 g2 gen2 hv2 st2 sc2 hp2 fs2 := by
  subst ho hg hgen hhv hst hsc hhp hfs
  rfl

/-- Witness for C9: two concrete identical runs. -/
theorem C9_pipeline_deterministic_witness :
    pipelineRun ⟨some "custom", some "1.2.3", none, false, none, false, false, none⟩
        (fun s => toString s.length) (fun t v _ => t ++ v) "hv" "stpl" "sctpl"
        "/dist/index.html" [("/dist/index.html", "<html><head></head><body></body></html>")]
      = pipelineRun ⟨some "custom", some "1.2.3", none, false, none, false, false, none⟩
        (fun s => toString s.length) (fun t v _ => t ++ v) "hv" "stpl" "sctpl"
        "/dist/index.html" [("/dist/index.html", "<html><head></head><body></body></html>")] :=
  C9_pipeline_deterministic _ _ _ _ _ _ _ _ _ _ _ _ _ _ _ _
    rfl rfl rfl rfl rfl rfl rfl rfl

lemma containsS_middle (x p y : String) : containsS p (x ++ p ++ y) = true :=
  containsL_middle x.data p.data y.data

/-- Linked-mode output with the head replacement expanded into its parts. -/
lemma injectPluginHtml_expanded
    (p1 p2 p3 version : String) (o : Options) (ch jh : String)
    (h1 : noEarlyOccS "<head>" p1 ("<head>" ++ (p2 ++ "</body>" ++ p3)) = true)
    (h2 : o.hiddenDefaultNotification = false →
      noEarlyOccS "</body>" (p1 ++ linkedHeadRep version o ch jh ++ p2)
        ("</body>" ++ p3) = true) :
    injectPluginHtml (p1 ++ "<head>" ++ p2 ++ "</body>" ++ p3) version o ch jh
      = p1 ++ "<head>\n    " ++ cssLinkHtml o ch ++ "\n    " ++ scriptSrcTag o jh
        ++ "\n    " ++ versionScript version ++ p2
        ++ (if o.hiddenDefaultNotification then "" else anchorDiv) ++ "</body>" ++ p3 := by
  rw [injectPluginHtml_structured p1 p2 p3 version o ch jh h1 h2]
  apply strExt
  simp [linkedHeadRep, strData_append, List.append_assoc]

/-- The global-variable version assignment occurs verbatim in linked-mode
output. -/
lemma versionAssign_in_linked
    (p1 p2 p3 version : String) (o : Options) (ch jh : String)
    (h1 : noEarlyOccS "<head>" p1 ("<head>" ++ (p2 ++ "</body>" ++ p3)) = true)
    (h2 : o.hiddenDefaultNotification = false →
      noEarlyOccS "</body>" (p1 ++ linkedHeadRep version o ch jh ++ p2)
        ("</body>" ++ p3) = true) :
    containsS ("window.pluginWebUpdateNotice_version = \x27" ++ version ++ "\x27;")
      (injectPluginHtml (p1 ++ "<head>" ++ p2 ++ "</body>" ++ p3) version o ch jh) = true := by
  have esplit1 : versionScript version
      = "<script>" ++ ("window.pluginWebUpdateNotice_version = \x27" ++ version ++ "\x27;")
        ++ "</script>" := by
    apply strExt
    have elit1 : ("<script>window.pluginWebUpdateNotice_version = \x27" : String)
        = "<script>" ++ "window.pluginWebUpdateNotice_version = \x27" := by decide
    have elit2 : ("\x27;</script>" : String) = "\x27;" ++ "</script>" := by decide
    rw [versionScript, elit1, elit2]
    simp [strData_append, List.append_assoc]
  have e : injectPluginHtml (p1 ++ "<head>" ++ p2 ++ "</body>" ++ p3) version o ch jh
      = (p1 ++ "<head>\n    " ++ cssLinkHtml o ch ++ "\n    " ++ scriptSrcTag o jh
          ++ "\n    " ++ "<script>")
        ++ ("window.pluginWebUpdateNotice_version = \x27" ++ version ++ "\x27;")
        ++ ("</script>" ++ p2
          ++ (if o.hiddenDefaultNotification then "" else anchorDiv) ++ "</body>" ++ p3) := by
    rw [injectPluginHtml_expanded p1 p2 p3 version o ch jh h1 h2, esplit1]
    apply strExt
    simp [strData_append, List.append_assoc]
  rw [e]
  exact containsS_middle _ _ _

/-- C4: on every input HTML containing `<head>`, linked-mode injection
inserts immediately after the opening `<head>` tag: the stylesheet `<link>`
to the hashed stylesheet path — the empty string exactly when
`hiddenDefaultNotification` is true or `customNotificationHTML` is
configured (truthy) — then, unconditionally, the `<script src>` reference to
the hashed script path and the inline script assigning the version to the
well-known global variable. -/
theorem C4_linked_mode_head_insertion
    (p1 p2 p3 version : String) (o : Options) (ch jh : String)
    (h1 : noEarlyOccS "<head>" p1 ("<head>" ++ (p2 ++ "</body>" ++ p3)) = true)
    (h2 : o.hiddenDefaultNotification = false →
      noEarlyOccS "</body>" (p1 ++ linkedHeadRep version o ch jh ++ p2)
        ("</body>" ++ p3) = true) :
    injectPluginHtml (p1 ++ "<head>" ++ p2 ++ "</body>" ++ p3) version o ch jh
        = p1 ++ "<head>\n    " ++ cssLinkHtml o ch ++ "\n    " ++ scriptSrcTag o jh
          ++ "\n    " ++ versionScript version ++ p2
          ++ (if o.hiddenDefaultNotification then "" else anchorDiv) ++ "</body>" ++ p3
      ∧ (cssLinkHtml o ch = ""
          ↔ (truthyStr o.customNotificationHTML = true ∨ o.hiddenDefaultNotification = true))
      ∧ containsS (scriptSrcTag o jh)
          (injectPluginHtml (p1 ++ "<head>" ++ p2 ++ "</body>" ++ p3) version o ch jh) = true
      ∧ containsS ("window.pluginWebUpdateNotice_version = \x27" ++ version ++ "\x27;")
          (injectPluginHtml (p1 ++ "<head>" ++ p2 ++ "</body>" ++ p3) version o ch jh) = true := by
  have heq := injectPluginHtml_expanded p1 p2 p3 version o ch jh h1 h2
  refine ⟨heq, ?_, ?_, versionAssign_in_linked p1 p2 p3 version o ch jh h1 h2⟩
  · constructor
    · intro he
      by_contra hcon
      push_neg at hcon
      have hc1 : truthyStr o.customNotificationHTML = false := by
        cases hx : truthyStr o.customNotificationHTML with
        | true => exact absurd hx hcon.1
        | false => rfl
      have hc2 : o.hiddenDefaultNotification = false := by
        cases hx : o.hiddenDefaultNotification with
        | true => exact absurd hx hcon.2
        | false => rfl
      rw [cssLinkHtml, hc1, hc2] at he
      simp only [Bool.or_self, Bool.false_eq_true, if_false] at he
      have hlen := congrArg (fun s => s.data.length) he
      simp only [strData_append] at hlen
      simp at hlen
    · intro hor
      rcases hor with hx | hx <;> simp [cssLinkHtml, hx]
  · have e : injectPluginHtml (p1 ++ "<head>" ++ p2 ++ "</body>" ++ p3) version o ch jh
        = (p1 ++ "<head>\n    " ++ cssLinkHtml o ch ++ "\n    ") ++ scriptSrcTag o jh
          ++ ("\n    " ++ versionScript version ++ p2
            ++ (if o.hiddenDefaultNotification then "" else anchorDiv) ++ "</body>" ++ p3) := by
      rw [heq]
      apply strExt
      simp [strData_append, List.append_assoc]
    rw [e]
    exact containsS_middle _ _ _

set_option maxRecDepth 8192 in
/-- Witness for C4: a concrete well-formed document with the default
options. -/
theorem C4_linked_mode_head_insertion_witness :
    noEarlyOccS "<head>" "<html>" ("<head>" ++ ("" ++ "</body>" ++ "</html>")) = true
      ∧ containsS (scriptSrcTag ⟨none, none, none, false, none, false, false, none⟩ "J")
          (injectPluginHtml ("<html>" ++ "<head>" ++ "" ++ "</body>" ++ "</html>") "1.2.3"
            ⟨none, none, none, false, none, false, false, none⟩ "C" "J") = true :=
  ⟨by decide,
    (C4_linked_mode_head_insertion "<html>" "" "</html>" "1.2.3"
      ⟨none, none, none, false, none, false, false, none⟩ "C" "J"
      (by decide) (fun _ => by decide)).2.2.1⟩

/-- C10: when `customNotificationHTML` is configured (truthy) and
`hiddenDefaultNotification` is false, the emit phase still reads, hashes
and registers the hash-suffixed stylesheet asset — only
`hiddenDefaultNotification` suppresses style emission — while linked-mode
injection renders the stylesheet `<link>` as the empty string, leaving the
emitted stylesheet unreferenced. -/
theorem C10_style_asset_emitted_despite_custom_html
    (o : Options) (getFileHash : String → String)
    (generateJsFileContent : String → String → Options → String)
    (version styleTemplate scriptTemplate : String)
    (hcustom : truthyStr o.customNotificationHTML = true)
    (hhid : o.hiddenDefaultNotification = false) :
    (cssAssetName (getFileHash styleTemplate), styleTemplate)
        ∈ (emitPhase o getFileHash generateJsFileContent
          version styleTemplate scriptTemplate).assets
      ∧ (emitPhase o getFileHash generateJsFileContent
          version styleTemplate scriptTemplate).cssFileHash = getFileHash styleTemplate
      ∧ (emitPhase o getFileHash generateJsFileContent
          version styleTemplate scriptTemplate).injectStyleContent = styleTemplate
      ∧ cssLinkHtml o (emitPhase o getFileHash generateJsFileContent
          version styleTemplate scriptTemplate).cssFileHash = "" := by
  refine ⟨?_, ?_, ?_, ?_⟩
  · simp [emitPhase, hhid]
  · simp [emitPhase, hhid]
  · simp [emitPhase, hhid]
  · simp [cssLinkHtml, hcustom]

/-- Witness for C10: a concrete custom notification markup. -/
theorem C10_style_asset_emitted_despite_custom_html_witness :
    truthyStr (some "<b>new version!</b>") = true
      ∧ cssLinkHtml ⟨none, none, some "<b>new version!</b>", false, none, false, false, none⟩
          (emitPhase ⟨none, none, some "<b>new version!</b>", false, none, false, false, none⟩
            (fun _ => "H") (fun t _ _ => t) "v" "styleT" "scriptT").cssFileHash = "" :=
  ⟨by decide,
    (C10_style_asset_emitted_despite_custom_html
      ⟨none, none, some "<b>new version!</b>", false, none, false, false, none⟩
      (fun _ => "H") (fun t _ _ => t) "v" "styleT" "scriptT"
      (by decide) rfl).2.2.2⟩

/-- C5: every version string the pipeline resolves is embedded verbatim in
the manifest JSON and verbatim in the global-variable assignment injected
into the HTML; with the custom strategy the resolved string is the supplied
`customVersion` itself. -/
theorem C5_version_embedded_verbatim
    (o : Options) (hashDerivedVersion version : String)
    (hver : version = getVersion o.versionType o.customVersion hashDerivedVersion)
    (p1 p2 p3 ch jh : String)
    (h1 : noEarlyOccS "<head>" p1 ("<head>" ++ (p2 ++ "</body>" ++ p3)) = true)
    (h2 : o.hiddenDefaultNotification = false →
      noEarlyOccS "</body>" (p1 ++ linkedHeadRep version o ch jh ++ p2)
        ("</body>" ++ p3) = true) :
    containsS version (generateJSONFileContent version o.silence) = true
      ∧ containsS ("window.pluginWebUpdateNotice_version = \x27" ++ version ++ "\x27;")
          (injectPluginHtml (p1 ++ "<head>" ++ p2 ++ "</body>" ++ p3) version o ch jh) = true
      ∧ (∀ cv, o.versionType = some "custom" → o.customVersion = some cv → version = cv) := by
  refine ⟨?_, ?_, ?_⟩
  · have e : generateJSONFileContent version o.silence
        = "\x7b \"version\": \"" ++ version
          ++ ("\", \"silence\": " ++ ((if o.silence then "true" else "false") ++ " \x7d")) := by
      apply strExt
      simp [generateJSONFileContent, strData_append, List.append_assoc]
    rw [e]
    exact containsS_middle _ _ _
  · exact versionAssign_in_linked p1 p2 p3 version o ch jh h1 h2
  · intro cv hct hcv
    rw [hver, getVersion, hct, hcv]
    simp

set_option maxRecDepth 8192 in
/-- Witness for C5, realizing end-to-end scenario A's version handling:
`customVersion "1.2.3"` resolves to exactly `"1.2.3"`, and the injected
output contains exactly `window.pluginWebUpdateNotice_version = '1.2.3';`. -/
theorem C5_version_embedded_verbatim_witness :
    ("1.2.3" : String)
        = getVersion (some "custom") (some "1.2.3") "deadbeef"
      ∧ containsS ("window.pluginWebUpdateNotice_version = \x27" ++ "1.2.3" ++ "\x27;")
          (injectPluginHtml ("<html>" ++ "<head>" ++ "" ++ "</body>" ++ "</html>") "1.2.3"
            ⟨some "custom", some "1.2.3", none, false, none, false, false, none⟩ "C" "J") = true :=
  ⟨by decide,
    (C5_version_embedded_verbatim
      ⟨some "custom", some "1.2.3", none, false, none, false, false, none⟩ "deadbeef" "1.2.3"
      (by decide) "<html>" "" "</html>" "C" "J" (by decide) (fun _ => by decide)).2.1⟩

/-- C8: both injection modes modify only the first occurrence of the
literal token `<head>` and the first occurrence of the literal token
`</body>`: the output is the input with the head replacement spliced at the
pinned first `<head>` and (unless hidden) one anchor spliced immediately
before the pinned first `</body>`, while `p1`, `p2` and `p3` — every
character outside the two insertion points — reappear verbatim, with no
parsing or reformatting. -/
theorem C8_first_occurrence_only_frame
    (p1 p2 p3 version : String) (o : Options) (ch jh sc jc : String)
    (h1 : noEarlyOccS "<head>" p1 ("<head>" ++ (p2 ++ "</body>" ++ p3)) = true)
    (h2 : o.hiddenDefaultNotification = false →
      noEarlyOccS "</body>" (p1 ++ linkedHeadRep version o ch jh ++ p2)
        ("</body>" ++ p3) = true)
    (h3 : o.hiddenDefaultNotification = false →
      noEarlyOccS "</body>" (p1 ++ inlineHeadRep version o sc jc ++ p2)
        ("</body>" ++ p3) = true) :
    injectPluginHtml (p1 ++ "<head>" ++ p2 ++ "</body>" ++ p3) version o ch jh
        = p1 ++ linkedHeadRep version o ch jh ++ p2
          ++ (if o.hiddenDefaultNotification then "" else anchorDiv) ++ "</body>" ++ p3
      ∧ injectPluginHTMLInline (p1 ++ "<head>" ++ p2 ++ "</body>" ++ p3) version o sc jc
        = p1 ++ inlineHeadRep version o sc jc ++ p2
          ++ (if o.hiddenDefaultNotification then "" else anchorDiv) ++ "</body>" ++ p3 :=
  ⟨injectPluginHtml_structured p1 p2 p3 version o ch jh h1 h2,
    injectPluginHTMLInline_structured p1 p2 p3 version o sc jc h1 h3⟩

set_option maxRecDepth 8192 in
/-- Witness for C8: a concrete document injected in both modes. -/
theorem C8_first_occurrence_only_frame_witness :
    noEarlyOccS "<head>" "<html>" ("<head>" ++ ("" ++ "</body>" ++ "</html>")) = true
      ∧ injectPluginHtml ("<html>" ++ "<head>" ++ "" ++ "</body>" ++ "</html>") "v"
          ⟨none, none, none, false, none, false, false, none⟩ "C" "J"
        = "<html>" ++ linkedHeadRep "v" ⟨none, none, none, false, none, false, false, none⟩ "C" "J"
          ++ "" ++ (if (false : Bool) then "" else anchorDiv) ++ "</body>" ++ "</html>" :=
  ⟨by decide,
    (C8_first_occurrence_only_frame "<html>" "" "</html>" "v"
      ⟨none, none, none, false, none, false, false, none⟩ "C" "J" "s" "j"
      (by decide) (fun _ => by decide) (fun _ => by decide)).1⟩

lemma anchorDiv_data_ne_nil : anchorDiv.data ≠ [] := by decide

/-- Counting an anchor-free block followed by an anchor-free tail. -/
lemma countSub_anchor_zero (x y : String)
    (hx : containsS anchorDiv x = false) (hy : containsS anchorDiv y = false)
    (hs : noStraddleS anchorDiv x y) :
    countSubL anchorDiv.data (x.data ++ y.data) = 0 := by
  rw [countSubL_append x.data y.data anchorDiv_data_ne_nil hs]
  have hx2 : countSubL anchorDiv.data x.data = 0 := (containsL_eq_false_iff _ _).mp hx
  have hy2 : countSubL anchorDiv.data y.data = 0 := (containsL_eq_false_iff _ _).mp hy
  rw [hx2, hy2]

/-- C2: in both injection modes, if `hiddenDefaultNotification` is true no
anchor element is inserted (the output contains no occurrence of the anchor
markup, given that neither the document nor the injected head block carries
one), and if it is false exactly one anchor element is inserted, placed
immediately before the closing `</body>` tag. -/
theorem C2_anchor_inserted_exactly_once
    (p1 p2 p3 version : String) (o : Options) (ch jh sc jc : String)
    (h1 : noEarlyOccS "<head>" p1 ("<head>" ++ (p2 ++ "</body>" ++ p3)) = true)
    (h2 : o.hiddenDefaultNotification = false →
      noEarlyOccS "</body>" (p1 ++ linkedHeadRep version o ch jh ++ p2)
        ("</body>" ++ p3) = true)
    (h3 : o.hiddenDefaultNotification = false →
      noEarlyOccS "</body>" (p1 ++ inlineHeadRep version o sc jc ++ p2)
        ("</body>" ++ p3) = true)
    (ha1 : containsS anchorDiv (p1 ++ linkedHeadRep version o ch jh ++ p2) = false)
    (ha2 : containsS anchorDiv ("</body>" ++ p3) = false)
    (hs0 : noStraddleS anchorDiv (p1 ++ linkedHeadRep version o ch jh ++ p2)
      ("</body>" ++ p3))
    (hs1 : noStraddleS anchorDiv (p1 ++ linkedHeadRep version o ch jh ++ p2)
      (anchorDiv ++ "</body>" ++ p3))
    (hs2 : noStraddleS anchorDiv anchorDiv ("</body>" ++ p3))
    (hb1 : containsS anchorDiv (p1 ++ inlineHeadRep version o sc jc ++ p2) = false)
    (ht0 : noStraddleS anchorDiv (p1 ++ inlineHeadRep version o sc jc ++ p2)
      ("</body>" ++ p3))
    (ht1 : noStraddleS anchorDiv (p1 ++ inlineHeadRep version o sc jc ++ p2)
      (anchorDiv ++ "</body>" ++ p3)) :
    (o.hiddenDefaultNotification = true →
      countSubS anchorDiv
          (injectPluginHtml (p1 ++ "<head>" ++ p2 ++ "</body>" ++ p3) version o ch jh) = 0
        ∧ countSubS anchorDiv
          (injectPluginHTMLInline (p1 ++ "<head>" ++ p2 ++ "</body>" ++ p3) version o sc jc)
          = 0)
      ∧ (o.hiddenDefaultNotification = false →
        countSubS anchorDiv
            (injectPluginHtml (p1 ++ "<head>" ++ p2 ++ "</body>" ++ p3) version o ch jh) = 1
          ∧ injectPluginHtml (p1 ++ "<head>" ++ p2 ++ "</body>" ++ p3) version o ch jh
            = (p1 ++ linkedHeadRep version o ch jh ++ p2) ++ anchorDiv ++ ("</body>" ++ p3)
          ∧ countSubS anchorDiv
            (injectPluginHTMLInline (p1 ++ "<head>" ++ p2 ++ "</body>" ++ p3) version o sc jc)
            = 1
          ∧ injectPluginHTMLInline (p1 ++ "<head>" ++ p2 ++ "</body>" ++ p3) version o sc jc
            = (p1 ++ inlineHeadRep version o sc jc ++ p2) ++ anchorDiv ++ ("</body>" ++ p3))
      := by
  have hlinked := injectPluginHtml_structured p1 p2 p3 version o ch jh h1 h2
  have hinline := injectPluginHTMLInline_structured p1 p2 p3 version o sc jc h1 h3
  constructor
  · intro hh
    rw [hh] at hlinked hinline
    simp only [if_true] at hlinked hinline
    constructor
    · show countSubL anchorDiv.data
        (injectPluginHtml (p1 ++ "<head>" ++ p2 ++ "</body>" ++ p3) version o ch jh).data = 0
      rw [hlinked]
      have e : (p1 ++ linkedHeadRep version o ch jh ++ p2 ++ "" ++ "</body>" ++ p3).data
          = (p1 ++ linkedHeadRep version o ch jh ++ p2).data ++ ("</body>" ++ p3).data := by
        simp [strData_append, strData_empty, List.append_assoc]
      rw [e]
      exact countSub_anchor_zero _ _ ha1 ha2 hs0
    · show countSubL anchorDiv.data
        (injectPluginHTMLInline (p1 ++ "<head>" ++ p2 ++ "</body>" ++ p3) version o sc jc).data
          = 0
      rw [hinline]
      have e : (p1 ++ inlineHeadRep version o sc jc ++ p2 ++ "" ++ "</body>" ++ p3).data
          = (p1 ++ inlineHeadRep version o sc jc ++ p2).data ++ ("</body>" ++ p3).data := by
        simp [strData_append, strData_empty, List.append_assoc]
      rw [e]
      exact countSub_anchor_zero _ _ hb1 ha2 ht0
  · intro hh
    rw [hh] at hlinked hinline
    simp only [Bool.false_eq_true, if_false] at hlinked hinline
    have hone : ∀ X : String, containsS anchorDiv X = false →
        noStraddleS anchorDiv X (anchorDiv ++ "</body>" ++ p3) →
        countSubL anchorDiv.data (X.data ++ (anchorDiv ++ "</body>" ++ p3).data) = 1 := by
      intro X hX hsX
      rw [countSubL_append X.data (anchorDiv ++ "</body>" ++ p3).data anchorDiv_data_ne_nil hsX]
      have hX2 : countSubL anchorDiv.data X.data = 0 := (containsL_eq_false_iff _ _).mp hX
      rw [hX2]
      have e2 : (anchorDiv ++ "</body>" ++ p3).data
          = anchorDiv.data ++ ("</body>" ++ p3).data := by
        simp [strData_append, List.append_assoc]
      rw [e2, countSubL_append anchorDiv.data ("</body>" ++ p3).data anchorDiv_data_ne_nil hs2]
      rw [countSubL_self anchorDiv_data_ne_nil]
      have hz : countSubL anchorDiv.data ("</body>" ++ p3).data = 0 := by
        rw [← containsL_eq_false_iff]
        exact ha2
      rw [hz]
    have elinked : injectPluginHtml (p1 ++ "<head>" ++ p2 ++ "</body>" ++ p3) version o ch jh
        = (p1 ++ linkedHeadRep version o ch jh ++ p2) ++ anchorDiv ++ ("</body>" ++ p3) := by
      rw [hlinked]
      apply strExt
      simp [strData_append, List.append_assoc]
    have einline : injectPluginHTMLInline (p1 ++ "<head>" ++ p2 ++ "</body>" ++ p3)
          version o sc jc
        = (p1 ++ inlineHeadRep version o sc jc ++ p2) ++ anchorDiv ++ ("</body>" ++ p3) := by
      rw [hinline]
      apply strExt
      simp [strData_append, List.append_assoc]
    refine ⟨?_, elinked, ?_, einline⟩
    · show countSubL anchorDiv.data
        (injectPluginHtml (p1 ++ "<head>" ++ p2 ++ "</body>" ++ p3) version o ch jh).data = 1
      rw [elinked]
      have e : ((p1 ++ linkedHeadRep version o ch jh ++ p2) ++ anchorDiv
            ++ ("</body>" ++ p3)).data
          = (p1 ++ linkedHeadRep version o ch jh ++ p2).data
            ++ (anchorDiv ++ "</body>" ++ p3).data := by
        simp [strData_append, List.append_assoc]
      rw [e]
      exact hone _ ha1 hs1
    · show countSubL anchorDiv.data
        (injectPluginHTMLInline (p1 ++ "<head>" ++ p2 ++ "</body>" ++ p3) version o sc jc).data
          = 1
      rw [einline]
      have e : ((p1 ++ inlineHeadRep version o sc jc ++ p2) ++ anchorDiv
            ++ ("</body>" ++ p3)).data
          = (p1 ++ inlineHeadRep version o sc jc ++ p2).data
            ++ (anchorDiv ++ "</body>" ++ p3).data := by
        simp [strData_append, List.append_assoc]
      rw [e]
      exact hone _ hb1 ht1

set_option maxRecDepth 32768 in
/-- Witness for C2: a concrete document with default options (notifications
shown) receives exactly one anchor, immediately before `</body>`. -/
theorem C2_anchor_inserted_exactly_once_witness :
    containsS anchorDiv
        ("<html>" ++ linkedHeadRep "v" ⟨none, none, none, false, none, false, false, none⟩ "C" "J"
          ++ "") = false
      ∧ countSubS anchorDiv
        (injectPluginHtml ("<html>" ++ "<head>" ++ "" ++ "</body>" ++ "</html>") "v"
          ⟨none, none, none, false, none, false, false, none⟩ "C" "J") = 1 :=
  ⟨by decide,
    ((C2_anchor_inserted_exactly_once "<html>" "" "</html>" "v"
      ⟨none, none, none, false, none, false, false, none⟩ "C" "J" "s" "j"
      (by decide) (fun _ => by decide) (fun _ => by decide)
      (by decide) (by decide) (by decide) (by decide) (by decide)
      (by decide) (by decide) (by decide)).2 rfl).1⟩

/-- Absence step past a leading block that no proper pattern head can end
in. -/
lemma absence_step_lit {p : List Char} (l y : List Char) (hp : p ≠ [])
    (hl : containsL p l = false)
    (hhead : ∀ k, k < p.length → 0 < k → ¬ p.take k <:+ l)
    (hy : containsL p y = false) : containsL p (l ++ y) = false :=
  containsL_append_eq_false l y hp hl hy (noStraddle_of_no_head l y hhead)

/-- Absence step for a trailing variable block followed by the final
concrete block. -/
lemma absence_step_last {p : List Char} (x y : List Char) (hp : p ≠ [])
    (hx : containsL p x = false) (hy : containsL p y = false)
    (hdrop : ∀ k, k < p.length → 0 < k → ¬ p.drop k <+: y) :
    containsL p (x ++ y) = false :=
  containsL_append_eq_false x y hp hx hy (noStraddle_of_no_tail x y hdrop)

/-- Absence step past a variable block whose following concrete block rules
out every proper pattern tail. -/
lemma absence_step_var {p : List Char} (x l r : List Char) (hp : p ≠ [])
    (hx : containsL p x = false) (hlen : p.length ≤ l.length + 1)
    (hdrop : ∀ k, k < p.length → 0 < k → ¬ p.drop k <+: l)
    (hy : containsL p (l ++ r) = false) : containsL p (x ++ (l ++ r)) = false :=
  containsL_append_eq_false x (l ++ r) hp hx hy (noStraddle_concat_right x l r hlen hdrop)

/-- C3: the two injection modes are mutually exclusive in their output
shapes.  Inline mode embeds literal `<style>`/`<script>` bodies that are
byte-identical to the contents the emit phase registered for the separate
hashed stylesheet/script files, and its injected block contains no
stylesheet `<link>` and no external `<script src`.  Linked mode's injected
block contains the `<script src=` reference and the stylesheet `<link>`
reference, and never a literal `<style>` body. -/
theorem C3_inline_and_linked_mutually_exclusive
    (o : Options) (getFileHash : String → String)
    (generateJsFileContent : String → String → Options → String)
    (version styleTemplate scriptTemplate : String)
    (p1 p2 p3 ch jh : String)
    (hhid : o.hiddenDefaultNotification = false)
    (hcust : truthyStr o.customNotificationHTML = false)
    (h1 : noEarlyOccS "<head>" p1 ("<head>" ++ (p2 ++ "</body>" ++ p3)) = true)
    (h3 : noEarlyOccS "</body>"
      (p1 ++ inlineHeadRep version o styleTemplate
        (generateJsFileContent scriptTemplate version o) ++ p2) ("</body>" ++ p3) = true)
    (hS1 : containsS "<link" styleTemplate = false)
    (hJ1 : containsS "<link" (generateJsFileContent scriptTemplate version o) = false)
    (hV1 : containsS "<link" version = false)
    (hS2 : containsS "<script src" styleTemplate = false)
    (hJ2 : containsS "<script src" (generateJsFileContent scriptTemplate version o) = false)
    (hV2 : containsS "<script src" version = false)
    (hB3 : containsS "<style>" (o.injectFileBase.getD "/") = false)
    (hch3 : containsS "<style>" ch = false)
    (hjh3 : containsS "<style>" jh = false)
    (hV3 : containsS "<style>" version = false) :
    (cssAssetName (emitPhase o getFileHash generateJsFileContent version styleTemplate
          scriptTemplate).cssFileHash,
        (emitPhase o getFileHash generateJsFileContent version styleTemplate
          scriptTemplate).injectStyleContent)
        ∈ (emitPhase o getFileHash generateJsFileContent version styleTemplate
          scriptTemplate).assets
      ∧ (jsAssetName (emitPhase o getFileHash generateJsFileContent version styleTemplate
          scriptTemplate).jsFileHash,
        (emitPhase o getFileHash generateJsFileContent version styleTemplate
          scriptTemplate).injectScriptContent)
        ∈ (emitPhase o getFileHash generateJsFileContent version styleTemplate
          scriptTemplate).assets
      ∧ (emitPhase o getFileHash generateJsFileContent version styleTemplate
          scriptTemplate).injectStyleContent = styleTemplate
      ∧ (emitPhase o getFileHash generateJsFileContent version styleTemplate
          scriptTemplate).injectScriptContent
        = generateJsFileContent scriptTemplate version o
      ∧ injectPluginHTMLInline (p1 ++ "<head>" ++ p2 ++ "</body>" ++ p3) version o
          styleTemplate (generateJsFileContent scriptTemplate version o)
        = p1 ++ "<head>\n        " ++ ("<style>" ++ styleTemplate ++ "</style>")
          ++ "\n        "
          ++ ("<script>" ++ generateJsFileContent scriptTemplate version o ++ "</script>")
          ++ "\n        " ++ versionScript version ++ p2 ++ anchorDiv ++ "</body>" ++ p3
      ∧ containsS "<link"
          (inlineHeadRep version o styleTemplate
            (generateJsFileContent scriptTemplate version o)) = false
      ∧ containsS "<script src"
          (inlineHeadRep version o styleTemplate
            (generateJsFileContent scriptTemplate version o)) = false
      ∧ containsS "<script src=\"" (linkedHeadRep version o ch jh) = true
      ∧ containsS "<link rel=\"stylesheet\" href=\"" (linkedHeadRep version o ch jh) = true
      ∧ containsS "<style>" (linkedHeadRep version o ch jh) = false := by
  have echain : (inlineHeadRep version o styleTemplate
        (generateJsFileContent scriptTemplate version o)).data
      = "<head>\n        <style>".data ++ (styleTemplate.data
        ++ ("</style>\n        <script>".data
          ++ ((generateJsFileContent scriptTemplate version o).data
            ++ ("</script>\n        <script>window.pluginWebUpdateNotice_version = \x27".data
              ++ (version.data ++ "\x27;</script>".data))))) := by
    have m0 : ("<head>\n        <style>" : String) = "<head>\n        " ++ "<style>" := by
      decide
    have m1 : ("</style>\n        <script>" : String)
        = "</style>" ++ ("\n        " ++ "<script>") := by decide
    have m2 : ("</script>\n        <script>window.pluginWebUpdateNotice_version = \x27"
          : String)
        = "</script>"
          ++ ("\n        " ++ "<script>window.pluginWebUpdateNotice_version = \x27") := by
      decide
    rw [m0, m1, m2]
    simp [inlineHeadRep, pluginStyle, pluginScriptTag, versionScript, hcust, hhid,
      strData_append, List.append_assoc]
  refine ⟨?_, ?_, ?_, ?_, ?_, ?_, ?_, ?_, ?_, ?_⟩
  · simp [emitPhase, hhid]
  · simp [emitPhase, hhid]
  · simp [emitPhase, hhid]
  · simp [emitPhase, hhid]
  · rw [injectPluginHTMLInline_structured p1 p2 p3 version o styleTemplate
      (generateJsFileContent scriptTemplate version o) h1 (fun _ => h3)]
    rw [hhid]
    apply strExt
    simp [inlineHeadRep, pluginStyle, pluginScriptTag, hcust, hhid,
      strData_append, strData_empty, List.append_assoc]
  · show containsL "<link".data (inlineHeadRep version o styleTemplate
      (generateJsFileContent scriptTemplate version o)).data = false
    rw [echain]
    refine absence_step_lit _ _ (by decide) (by decide) (by decide) ?_
    refine absence_step_var _ _ _ (by decide) hS1 ?_ ?_ ?_
    · decide
    · decide
    refine absence_step_lit _ _ (by decide) (by decide) (by decide) ?_
    refine absence_step_var _ _ _ (by decide) hJ1 ?_ ?_ ?_
    · decide
    · decide
    refine absence_step_lit _ _ (by decide) (by decide) (by decide) ?_
    refine absence_step_last _ _ (by decide) hV1 ?_ ?_
    · decide
    · decide
  · show containsL "<script src".data (inlineHeadRep version o styleTemplate
      (generateJsFileContent scriptTemplate version o)).data = false
    rw [echain]
    refine absence_step_lit _ _ (by decide) (by decide) (by decide) ?_
    refine absence_step_var _ _ _ (by decide) hS2 ?_ ?_ ?_
    · decide
    · decide
    refine absence_step_lit _ _ (by decide) (by decide) (by decide) ?_
    refine absence_step_var _ _ _ (by decide) hJ2 ?_ ?_ ?_
    · decide
    · decide
    refine absence_step_lit _ _ (by decide) (by decide) (by decide) ?_
    refine absence_step_last _ _ (by decide) hV2 ?_ ?_
    · decide
    · decide
  · have e8 : linkedHeadRep version o ch jh
        = ("<head>\n    " ++ cssLinkHtml o ch ++ "\n    ") ++ "<script src=\""
          ++ (o.injectFileBase.getD "/" ++ DIRECTORY_NAME ++ "/" ++ INJECT_SCRIPT_FILE_NAME
            ++ "." ++ jh ++ ".js\"></script>" ++ "\n    " ++ versionScript version) := by
      apply strExt
      simp [linkedHeadRep, scriptSrcTag, strData_append, List.append_assoc]
    rw [e8]
    exact containsS_middle _ _ _
  · have e9 : linkedHeadRep version o ch jh
        = "<head>\n    " ++ "<link rel=\"stylesheet\" href=\""
          ++ (o.injectFileBase.getD "/" ++ DIRECTORY_NAME ++ "/" ++ INJECT_STYLE_FILE_NAME
            ++ "." ++ ch ++ ".css\">" ++ "\n    " ++ scriptSrcTag o jh ++ "\n    "
            ++ versionScript version) := by
      apply strExt
      simp [linkedHeadRep, cssLinkHtml, hcust, hhid, strData_append, List.append_assoc]
    rw [e9]
    exact containsS_middle _ _ _
  · have echain3 : (linkedHeadRep version o ch jh).data
        = "<head>\n    <link rel=\"stylesheet\" href=\"".data
          ++ ((o.injectFileBase.getD "/").data
            ++ ("pluginWebUpdateNotice/webUpdateNoticeInjectStyle.".data
              ++ (ch.data
                ++ (".css\">\n    <script src=\"".data
                  ++ ((o.injectFileBase.getD "/").data
                    ++ ("pluginWebUpdateNotice/webUpdateNoticeInjectScript.".data
                      ++ (jh.data
                        ++ (".js\"></script>\n    <script>window.pluginWebUpdateNotice_version = \x27".data
                          ++ (version.data ++ "\x27;</script>".data))))))))) := by
      have m0 : ("<head>\n    <link rel=\"stylesheet\" href=\"" : String)
          = "<head>\n    " ++ "<link rel=\"stylesheet\" href=\"" := by decide
      have m1 : ("pluginWebUpdateNotice/webUpdateNoticeInjectStyle." : String)
          = DIRECTORY_NAME ++ "/" ++ INJECT_STYLE_FILE_NAME ++ "." := by decide
      have m2 : (".css\">\n    <script src=\"" : String)
          = ".css\">" ++ ("\n    " ++ "<script src=\"") := by decide
      have m3 : ("pluginWebUpdateNotice/webUpdateNoticeInjectScript." : String)
          = DIRECTORY_NAME ++ "/" ++ INJECT_SCRIPT_FILE_NAME ++ "." := by decide
      have m4 : (".js\"></script>\n    <script>window.pluginWebUpdateNotice_version = \x27"
            : String)
          = ".js\"></script>"
            ++ ("\n    " ++ "<script>window.pluginWebUpdateNotice_version = \x27") := by
        decide
      rw [m0, m1, m2, m3, m4]
      simp [linkedHeadRep, cssLinkHtml, scriptSrcTag, versionScript, hcust, hhid,
        strData_append, List.append_assoc]
    show containsL "<style>".data (linkedHeadRep version o ch jh).data = false
    rw [echain3]
    refine absence_step_lit _ _ (by decide) (by decide) (by decide) ?_
    refine absence_step_var _ _ _ (by decide) hB3 ?_ ?_ ?_
    · decide
    · decide
    refine absence_step_lit _ _ (by decide) (by decide) (by decide) ?_
    refine absence_step_var _ _ _ (by decide) hch3 ?_ ?_ ?_
    · decide
    · decide
    refine absence_step_lit _ _ (by decide) (by decide) (by decide) ?_
    refine absence_step_var _ _ _ (by decide) hB3 ?_ ?_ ?_
    · decide
    · decide
    refine absence_step_lit _ _ (by decide) (by decide) (by decide) ?_
    refine absence_step_var _ _ _ (by decide) hjh3 ?_ ?_ ?_
    · decide
    · decide
    refine absence_step_lit _ _ (by decide) (by decide) (by decide) ?_
    refine absence_step_last _ _ (by decide) hV3 ?_ ?_
    · decide
    · decide

set_option maxRecDepth 32768 in
/-- Witness for C3: concrete templates, version and hashes. -/
theorem C3_inline_and_linked_mutually_exclusive_witness :
    containsS "<script src=\""
        (linkedHeadRep "1.2.3" ⟨none, none, none, false, none, false, false, none⟩ "C" "J")
        = true
      ∧ containsS "<style>"
        (linkedHeadRep "1.2.3" ⟨none, none, none, false, none, false, false, none⟩ "C" "J")
        = false :=
  ⟨(C3_inline_and_linked_mutually_exclusive
      ⟨none, none, none, false, none, false, false, none⟩
      (fun _ => "H") (fun t v _ => t ++ v) "1.2.3" "body \x7b margin: 0 \x7d" "poll()"
      "<html>" "" "</html>" "C" "J" rfl rfl
      (by decide) (by decide) (by decide) (by decide) (by decide) (by decide) (by decide)
      (by decide) (by decide) (by decide) (by decide) (by decide)).2.2.2.2.2.2.2.2.1,
    (C3_inline_and_linked_mutually_exclusive
      ⟨none, none, none, false, none, false, false, none⟩
      (fun _ => "H") (fun t v _ => t ++ v) "1.2.3" "body \x7b margin: 0 \x7d" "poll()"
      "<html>" "" "</html>" "C" "J" rfl rfl
      (by decide) (by decide) (by decide) (by decide) (by decide) (by decide) (by decide)
      (by decide) (by decide) (by decide) (by decide) (by decide)).2.2.2.2.2.2.2.2.2⟩

end WebUpdateNotification
